import Mathlib

/-!
Shallow embedding of `src/functions/custom-resource/index.py`, a minimal
CloudFormation-style custom-resource lifecycle handler.

Python values that appear in the handler (strings, dicts, booleans) are
modelled by the inductive `Value`; a Python dict is an association list
with first-match lookup (event dicts have distinct keys, so this agrees
with Python dict semantics).  Fallible Python code (subscripting that can
raise `KeyError`/`TypeError`, `urllib.parse` raising `ValueError`, the
explicit `raise Exception`) is modelled with `Except PyError`.

`print` is pure output: the primary definitions drop it; for the
statelessness claim, `*_st` variants thread the print log as explicit
state and are proved to agree with the primary definitions.
-/

/-- A Python value as used by the handler: strings, dicts with string
keys, and booleans. -/
inductive Value where
  | str (s : String)
  | dict (entries : List (String × Value))
  | bool (b : Bool)
deriving Repr

/-- A Python dict with string keys. -/
abbrev Dict := List (String × Value)

/-- The Python exceptions the handler can raise: `KeyError` from a missing
dict key, `TypeError` from subscripting a non-dict or parsing a non-string,
`ValueError` from `urllib.parse`, and the generic `Exception` raised by
`on_event` itself. -/
inductive PyError where
  | keyError (key : String)
  | typeError (msg : String)
  | valueError (msg : String)
  | exception (msg : String)
deriving Repr

/-- First-match lookup in a dict, `d.get(k)` without a default. -/
def Dict.lookup : Dict → String → Option Value
  | [], _ => none
  | (k, v) :: rest, key => if k = key then some v else Dict.lookup rest key

/-- Python `d[k]` on a dict: the value, or `KeyError` when absent. -/
def Dict.getItem (d : Dict) (k : String) : Except PyError Value :=
  match Dict.lookup d k with
  | some v => Except.ok v
  | none => Except.error (PyError.keyError k)

/-- Python `v[k]` on an arbitrary value: dict lookup on dicts, `TypeError`
otherwise (strings and booleans are not subscriptable by a string key). -/
def Value.getItem : Value → String → Except PyError Value
  | Value.dict d, k => Dict.getItem d k
  | Value.str _, _ => Except.error (PyError.typeError "string indices must be integers")
  | Value.bool _, _ => Except.error (PyError.typeError "\x27bool\x27 object is not subscriptable")

/-- Python `v == s` for a string literal `s`: true exactly when `v` is the
string `s` (a dict or bool never equals a string). -/
def Value.eqStr : Value → String → Bool
  | Value.str s, t => s == t
  | _, _ => false

mutual

/-- Python `repr` of a `Value` (as produced by `%s`-formatting a dict). -/
def Value.pyRepr : Value → String
  | Value.str s => "\x27" ++ s ++ "\x27"
  | Value.bool true => "True"
  | Value.bool false => "False"
  | Value.dict d => "\x7b" ++ pyReprEntries d ++ "\x7d"

/-- Comma-separated `repr` of dict entries. -/
def pyReprEntries : List (String × Value) → String
  | [] => ""
  | [(k, v)] => "\x27" ++ k ++ "\x27: " ++ Value.pyRepr v
  | (k, v) :: rest => "\x27" ++ k ++ "\x27: " ++ Value.pyRepr v ++ ", " ++ pyReprEntries rest

end

/-- Python `str` of a `Value`, as used by `%s` formatting: a string
formats as itself, other values as their `repr`. -/
def Value.pyStr : Value → String
  | Value.str s => s
  | v => Value.pyRepr v

/-! ### `urllib.parse.urlparse(url).netloc`

Model of CPython 3.11 `urllib.parse.urlsplit` restricted to the
computation of the `netloc` component (`urlparse` delegates to `urlsplit`;
the extra params split in `urlparse` does not touch `netloc`).  Steps, as
in the CPython source: strip leading C0-control-or-space characters,
remove the unsafe bytes tab/CR/LF, strip a well-formed scheme prefix,
then when the remainder starts with `//` take the netloc up to the first
`/`, `?` or `#`.  The parser then rejects with `ValueError`:
- a netloc with a `[` but no `]` or vice versa (`Invalid IPv6 URL`);
- a bracketed host that is not an IPvFuture literal or a valid IPv6
  address (`_check_bracketed_host`, modelled below in full, including
  CPython `ipaddress`'s IPv4 and IPv6 string acceptance);
- a netloc whose NFKC normalization introduces one of `/?#@:`
  (`_checknetloc`, modelled below exactly via a finite character set). -/

/-- Characters of CPython `_WHATWG_C0_CONTROL_OR_SPACE`. -/
def c0ControlOrSpace (c : Char) : Bool := c.val ≤ 0x20

/-- CPython `_UNSAFE_URL_BYTES_TO_REMOVE`: tab, CR, LF. -/
def unsafeUrlByte (c : Char) : Bool := c = '\t' || c = '\r' || c = '\n'

/-- CPython `scheme_chars`: ASCII letters, digits, `+`, `-`, `.`. -/
def scheme_chars (c : Char) : Bool :=
  c.isAlpha || c.isDigit || c = '+' || c = '-' || c = '.'

/-- The scheme-stripping step of `urlsplit`: when the first `:` is at a
positive index, the first character is an ASCII letter and everything
before the `:` is a scheme character, drop through the `:`; otherwise
leave the url unchanged. -/
def stripScheme (cs : List Char) : List Char :=
  match List.findIdx? (fun c => c = ':') cs with
  | none => cs
  | some i =>
    if i = 0 then cs
    else
      match cs with
      | [] => cs
      | c0 :: _ =>
        if c0.isAlpha && (cs.take i).all scheme_chars then cs.drop (i + 1) else cs

/-- CPython `_splitnetloc(url, 2)`: split off the domain part, ending at
the earliest of `/`, `?`, `#` after position 2 (or the end). -/
def splitnetloc (cs : List Char) : List Char × List Char :=
  let rest := cs.drop 2
  (rest.takeWhile (fun c => !(c = '/' || c = '?' || c = '#')),
   rest.dropWhile (fun c => !(c = '/' || c = '?' || c = '#')))

/-- ASCII decimal digit. -/
def isAsciiDigit (c : Char) : Bool := '0' ≤ c && c ≤ '9'

/-- ASCII hexadecimal digit (CPython `ipaddress._HEX_DIGITS`). -/
def isHexDigitChar (c : Char) : Bool :=
  isAsciiDigit c || ('a' ≤ c && c ≤ 'f') || ('A' ≤ c && c ≤ 'F')

/-- Python `str.split(sep)` for a one-character separator: the empty
string yields `[""]`, and adjacent separators yield empty parts. -/
def splitOnChar (sep : Char) : List Char → List (List Char)
  | [] => [[]]
  | c :: rest =>
    match splitOnChar sep rest with
    | [] => [[]]
    | h :: t => if c = sep then [] :: h :: t else (c :: h) :: t

/-- Value of a list of ASCII decimal digits. -/
def decimalVal (s : List Char) : Nat :=
  s.foldl (fun a c => a * 10 + (c.toNat - 48)) 0

/-- Acceptance of CPython `ipaddress._BaseV4._parse_octet`: one to three
ASCII decimal digits, no leading zero unless the octet is `"0"` itself,
value at most 255. -/
def validOctet (s : List Char) : Bool :=
  !s.isEmpty && s.all isAsciiDigit && s.length ≤ 3 &&
    (s == ['0'] || s.headD '0' != '0') && decimalVal s ≤ 255

/-- Acceptance of a CPython `ipaddress.IPv4Address` string: no `/`,
nonempty, and exactly four valid octets separated by `.`. -/
def validIPv4 (s : List Char) : Bool :=
  !s.contains '/' && !s.isEmpty &&
    (let octets := splitOnChar '.' s
     octets.length == 4 && octets.all validOctet)

/-- Acceptance of CPython `ipaddress._BaseV6._parse_hextet`: one to four
ASCII hexadecimal digits. -/
def validHextet (s : List Char) : Bool :=
  s.all isHexDigitChar && s.length ≤ 4 && !s.isEmpty

/-- Acceptance of CPython `ipaddress._BaseV6._ip_int_from_string` on the
colon-separated parts, after the optional IPv4-suffix substitution: at
most 9 parts; at most one empty inner part (the `::`); an empty endpoint
only next to the `::`; with a `::` fewer than 8 remaining parts, without
it exactly 8 and nonempty endpoints; all counted parts valid hextets. -/
def validIPv6Parts (parts : List (List Char)) : Bool :=
  if parts.length > 9 then false
  else
    let inner := (parts.drop 1).dropLast
    let skips := List.countP (fun p => p.isEmpty) inner
    if skips > 1 then false
    else if skips = 1 then
      let skip := 1 + List.findIdx (fun p => p.isEmpty) inner
      let hi0 := skip
      let lo0 := parts.length - skip - 1
      let firstEmpty := (parts.headD ['0']).isEmpty
      let lastEmpty := (parts.getLastD ['0']).isEmpty
      if firstEmpty ∧ hi0 - 1 ≠ 0 then false
      else if lastEmpty ∧ lo0 - 1 ≠ 0 then false
      else
        let hi := if firstEmpty then hi0 - 1 else hi0
        let lo := if lastEmpty then lo0 - 1 else lo0
        if 8 ≤ hi + lo then false
        else (parts.take hi).all validHextet &&
          (parts.drop (parts.length - lo)).all validHextet
    else
      if parts.length ≠ 8 then false
      else if (parts.headD ['0']).isEmpty then false
      else if (parts.getLastD ['0']).isEmpty then false
      else parts.all validHextet

/-- Acceptance of an IPv6 address body (CPython `_ip_int_from_string`):
nonempty, at least three colon-separated parts, and when the last part
contains a `.` it must be a valid IPv4 address and is replaced by two
hextets (the substitutes are always valid 1-4 digit hextets, so `['0']`
stands in for them). -/
def validIPv6NoScope (s : List Char) : Bool :=
  if s.isEmpty then false
  else
    let parts := splitOnChar ':' s
    if parts.length < 3 then false
    else if (parts.getLastD []).contains '.' then
      if validIPv4 (parts.getLastD []) then
        validIPv6Parts (parts.dropLast ++ [['0'], ['0']])
      else false
    else validIPv6Parts parts

/-- Acceptance of a CPython `ipaddress.IPv6Address` string: no `/`, an
optional `%scope` suffix split at the first `%` (the scope must be
nonempty and contain no further `%`), and a valid address body. -/
def validIPv6 (s : List Char) : Bool :=
  !s.contains '/' &&
    (if s.contains '%' then
       let addr := s.takeWhile (fun c => c != '%')
       let scope := (s.dropWhile (fun c => c != '%')).drop 1
       !scope.isEmpty && !scope.contains '%' && validIPv6NoScope addr
     else validIPv6NoScope s)

/-- CPython `urllib.parse._check_bracketed_host` (3.11): a host starting
with `v` must match the IPvFuture pattern `v<hex>+.<char>+` (where the
final characters may not include a newline, per `re` `.`); otherwise the
host must be accepted by `ipaddress.ip_address` and not be an IPv4
address. -/
def _check_bracketed_host (hostname : List Char) : Except PyError Unit :=
  match hostname with
  | 'v' :: rest =>
    let hexPart := rest.takeWhile isHexDigitChar
    let tail := rest.dropWhile isHexDigitChar
    if !hexPart.isEmpty && tail.headD ' ' == '.' &&
        !(tail.drop 1).isEmpty && !(tail.drop 1).contains '\n' then
      Except.ok ()
    else Except.error (PyError.valueError "IPvFuture address is invalid")
  | _ =>
    if validIPv4 hostname then
      Except.error (PyError.valueError "An IPv4 address cannot be in brackets")
    else if validIPv6 hostname then Except.ok ()
    else
      Except.error (PyError.valueError
        ("\x27" ++ String.mk hostname ++ "\x27 does not appear to be an IPv4 or IPv6 address"))

/-- The non-ASCII characters (Unicode 14.0, as shipped with CPython 3.11)
whose NFKC normalization contains one of the delimiters `/?#@:`. -/
def nfkcUnsafeChars : List Char :=
  ['⁇', '⁈', '⁉', '℀', '℁', '℅', '℆', '⩴', '︓', '︖',
   '﹕', '﹖', '﹟', '﹫', '＃', '／', '：', '？', '＠']

/-- CPython `urllib.parse._checknetloc`: an empty or all-ASCII netloc is
accepted; otherwise the netloc with `@`, `:`, `#`, `?` removed is NFKC
normalized and a `ValueError` is raised when the normalization contains
one of `/?#@:`.  The remaining string contains none of those five ASCII
delimiters itself (`/?#` end the netloc and `@:` were removed), they are
never produced or consumed by canonical composition, and under NFKC they
arise exactly from the compatibility decompositions of the characters in
`nfkcUnsafeChars` (each of which never normalizes to itself) — so the
raise condition is equivalent to containing one of those characters. -/
def _checknetloc (netloc : List Char) : Except PyError Unit :=
  if netloc.isEmpty || netloc.all (fun c => c.val ≤ 0x7F) then Except.ok ()
  else
    let n := netloc.filter (fun c => !(c == '@' || c == ':' || c == '#' || c == '?'))
    if n.any (fun c => nfkcUnsafeChars.contains c) then
      Except.error (PyError.valueError
        ("netloc \x27" ++ String.mk netloc ++
          "\x27 contains invalid characters under NFKC normalization"))
    else Except.ok ()

/-- The bracketed-host validation step of `urlsplit`: when the netloc
contains both `[` and `]`, `_check_bracketed_host` is applied to
`netloc.partition('[')[2].partition(']')[0]`, the text between the first
`[` and the next `]`. -/
def bracketedHostCheck (netloc : List Char) : Except PyError Unit :=
  if netloc.contains '[' && netloc.contains ']' then
    _check_bracketed_host
      (((netloc.dropWhile (fun c => c != '[')).drop 1).takeWhile (fun c => c != ']'))
  else Except.ok ()

/-- `urllib.parse.urlparse(url).netloc` for a string url (CPython 3.11):
the netloc is extracted, the bracket checks run inside the `//` branch,
and `_checknetloc` runs before the result is built.  Without `//` the
netloc is empty and `_checknetloc('')` returns immediately. -/
def urlparse_netloc (url : String) : Except PyError String :=
  let cs := url.toList.dropWhile c0ControlOrSpace
  let cs := cs.filter (fun c => !unsafeUrlByte c)
  let cs := stripScheme cs
  if cs.take 2 = ['/', '/'] then
    let netloc := (splitnetloc cs).1
    if (netloc.contains '[' && !netloc.contains ']') ||
        (netloc.contains ']' && !netloc.contains '[') then
      Except.error (PyError.valueError "Invalid IPv6 URL")
    else
      match bracketedHostCheck netloc with
      | Except.error e => Except.error e
      | Except.ok _ =>
        match _checknetloc netloc with
        | Except.error e => Except.error e
        | Except.ok _ => Except.ok (String.mk netloc)
  else
    Except.ok ""

/-- `urllib.parse.urlparse(url).netloc` applied to an arbitrary value:
CPython accepts only strings here (a non-string argument fails inside
`_coerce_args` / the parser with a `TypeError`). -/
def urlparseValue : Value → Except PyError String
  | Value.str u => urlparse_netloc u
  | _ => Except.error (PyError.typeError "Cannot mix str and non-str arguments")

/-! ### The handlers (`index.py`) -/

/-- `on_create(event)`: reads `event["ResourceProperties"]` (for the log
line), then `event["ResourceProperties"]["Url"]`, parses it and returns
`{"Data": {"HostName": netloc}}`. -/
def on_create (event : Dict) : Except PyError Dict :=
  match Dict.getItem event "ResourceProperties" with
  | Except.error e => Except.error e
  | Except.ok _props =>
    match Dict.getItem event "ResourceProperties" with
    | Except.error e => Except.error e
    | Except.ok rp =>
      match Value.getItem rp "Url" with
      | Except.error e => Except.error e
      | Except.ok url =>
        match urlparseValue url with
        | Except.error e => Except.error e
        | Except.ok netloc =>
          Except.ok [("Data", Value.dict [("HostName", Value.str netloc)])]

/-- `on_update(event)`: reads `PhysicalResourceId` and
`ResourceProperties`, returns `{"PhysicalResourceId": physical_id}`. -/
def on_update (event : Dict) : Except PyError Dict :=
  match Dict.getItem event "PhysicalResourceId" with
  | Except.error e => Except.error e
  | Except.ok physical_id =>
    match Dict.getItem event "ResourceProperties" with
    | Except.error e => Except.error e
    | Except.ok _props =>
      Except.ok [("PhysicalResourceId", physical_id)]

/-- `on_delete(event)`: reads `PhysicalResourceId`, returns
`{"PhysicalResourceId": physical_id}`. -/
def on_delete (event : Dict) : Except PyError Dict :=
  match Dict.getItem event "PhysicalResourceId" with
  | Except.error e => Except.error e
  | Except.ok physical_id =>
    Except.ok [("PhysicalResourceId", physical_id)]

/-- `on_event(event, context)`: dispatch on `event["RequestType"]`,
raising `Exception("Invalid request type: %s" % request_type)` for an
unrecognized type. -/
def on_event (event : Dict) : Except PyError Dict :=
  match Dict.getItem event "RequestType" with
  | Except.error e => Except.error e
  | Except.ok request_type =>
    if Value.eqStr request_type "Create" then on_create event
    else if Value.eqStr request_type "Update" then on_update event
    else if Value.eqStr request_type "Delete" then on_delete event
    else Except.error (PyError.exception ("Invalid request type: " ++ Value.pyStr request_type))

/-- `is_complete(event, context)`: reads `PhysicalResourceId` and
`RequestType`, then returns `{"IsComplete": True}`. -/
def is_complete (event : Dict) : Except PyError Dict :=
  match Dict.getItem event "PhysicalResourceId" with
  | Except.error e => Except.error e
  | Except.ok _physical_id =>
    match Dict.getItem event "RequestType" with
    | Except.error e => Except.error e
    | Except.ok _request_type =>
      Except.ok [("IsComplete", Value.bool true)]

/-! ### Stateful variants

The only effect in the source is `print`.  The `*_st` variants thread the
accumulated print log as explicit state, so that statelessness (the
result of an invocation does not depend on state left by earlier
invocations) is a theorem rather than an artifact of the pure model. -/

/-- Python `print(s)`: append a line to the log. -/
def pyprint (log : List String) (s : String) : List String := log ++ [s]

/-- `on_create` threading the print log. -/
def on_create_st (event : Dict) (log : List String) :
    Except PyError Dict × List String :=
  match Dict.getItem event "ResourceProperties" with
  | Except.error e => (Except.error e, log)
  | Except.ok props =>
    let log := pyprint log ("create new resource with props " ++ Value.pyStr props)
    match Dict.getItem event "ResourceProperties" with
    | Except.error e => (Except.error e, log)
    | Except.ok rp =>
      match Value.getItem rp "Url" with
      | Except.error e => (Except.error e, log)
      | Except.ok url =>
        match urlparseValue url with
        | Except.error e => (Except.error e, log)
        | Except.ok netloc =>
          (Except.ok [("Data", Value.dict [("HostName", Value.str netloc)])], log)

/-- `on_update` threading the print log. -/
def on_update_st (event : Dict) (log : List String) :
    Except PyError Dict × List String :=
  match Dict.getItem event "PhysicalResourceId" with
  | Except.error e => (Except.error e, log)
  | Except.ok physical_id =>
    match Dict.getItem event "ResourceProperties" with
    | Except.error e => (Except.error e, log)
    | Except.ok props =>
      let log := pyprint log
        ("update resource " ++ Value.pyStr physical_id ++ " with props " ++ Value.pyStr props)
      (Except.ok [("PhysicalResourceId", physical_id)], log)

/-- `on_delete` threading the print log. -/
def on_delete_st (event : Dict) (log : List String) :
    Except PyError Dict × List String :=
  match Dict.getItem event "PhysicalResourceId" with
  | Except.error e => (Except.error e, log)
  | Except.ok physical_id =>
    let log := pyprint log ("delete resource " ++ Value.pyStr physical_id)
    (Except.ok [("PhysicalResourceId", physical_id)], log)

/-- `on_event` threading the print log (it prints the raw event first). -/
def on_event_st (event : Dict) (log : List String) :
    Except PyError Dict × List String :=
  let log := pyprint log (Value.pyStr (Value.dict event))
  match Dict.getItem event "RequestType" with
  | Except.error e => (Except.error e, log)
  | Except.ok request_type =>
    if Value.eqStr request_type "Create" then on_create_st event log
    else if Value.eqStr request_type "Update" then on_update_st event log
    else if Value.eqStr request_type "Delete" then on_delete_st event log
    else
      (Except.error (PyError.exception ("Invalid request type: " ++ Value.pyStr request_type)),
       log)

/-- `is_complete` threading the print log (it prints nothing). -/
def is_complete_st (event : Dict) (log : List String) :
    Except PyError Dict × List String :=
  match Dict.getItem event "PhysicalResourceId" with
  | Except.error e => (Except.error e, log)
  | Except.ok _physical_id =>
    match Dict.getItem event "RequestType" with
    | Except.error e => (Except.error e, log)
    | Except.ok _request_type =>
      (Except.ok [("IsComplete", Value.bool true)], log)

/-! ### Helper lemmas -/

theorem getItem_of_lookup {d : Dict} {k : String} {v : Value}
    (h : Dict.lookup d k = some v) : Dict.getItem d k = Except.ok v := by
  simp [Dict.getItem, h]

theorem getItem_of_lookup_none {d : Dict} {k : String}
    (h : Dict.lookup d k = none) :
    Dict.getItem d k = Except.error (PyError.keyError k) := by
  simp [Dict.getItem, h]

theorem dispatch_create {e : Dict}
    (h : Dict.lookup e "RequestType" = some (Value.str "Create")) :
    on_event e = on_create e := by
  simp [on_event, Dict.getItem, h, Value.eqStr]

theorem dispatch_update {e : Dict}
    (h : Dict.lookup e "RequestType" = some (Value.str "Update")) :
    on_event e = on_update e := by
  simp [on_event, Dict.getItem, h, Value.eqStr]

theorem dispatch_delete {e : Dict}
    (h : Dict.lookup e "RequestType" = some (Value.str "Delete")) :
    on_event e = on_delete e := by
  simp [on_event, Dict.getItem, h, Value.eqStr]

theorem on_create_eq {e : Dict} {props : Dict} {u : String}
    (h1 : Dict.lookup e "ResourceProperties" = some (Value.dict props))
    (h2 : Dict.lookup props "Url" = some (Value.str u)) :
    on_create e =
      Except.map (fun n => [("Data", Value.dict [("HostName", Value.str n)])])
        (urlparse_netloc u) := by
  simp only [on_create, getItem_of_lookup h1, Value.getItem, getItem_of_lookup h2,
    urlparseValue]
  cases urlparse_netloc u <;> rfl

theorem on_create_ok_shape {e : Dict} {d : Dict} (h : on_create e = Except.ok d) :
    ∃ n, d = [("Data", Value.dict [("HostName", Value.str n)])] := by
  unfold on_create at h
  repeat' split at h
  all_goals simp_all
  exact ⟨_, h.symm⟩

theorem on_update_eq {e : Dict} {pid props : Value}
    (h1 : Dict.lookup e "PhysicalResourceId" = some pid)
    (h2 : Dict.lookup e "ResourceProperties" = some props) :
    on_update e = Except.ok [("PhysicalResourceId", pid)] := by
  simp [on_update, getItem_of_lookup h1, getItem_of_lookup h2]

theorem on_delete_eq {e : Dict} {pid : Value}
    (h1 : Dict.lookup e "PhysicalResourceId" = some pid) :
    on_delete e = Except.ok [("PhysicalResourceId", pid)] := by
  simp [on_delete, getItem_of_lookup h1]

theorem getItem_error {d : Dict} {k : String} {er : PyError}
    (h : Dict.getItem d k = Except.error er) : er = PyError.keyError k := by
  unfold Dict.getItem at h
  split at h <;> simp_all

theorem valueGetItem_not_exception {v : Value} {k : String} {er : PyError}
    (h : Value.getItem v k = Except.error er) : ∀ msg, er ≠ PyError.exception msg := by
  unfold Value.getItem at h
  split at h
  · have := getItem_error h
    simp [this]
  · intro msg
    simp_all
    simp [← h]
  · intro msg
    simp_all
    simp [← h]

theorem check_bracketed_host_error {host : List Char} {er : PyError}
    (h : _check_bracketed_host host = Except.error er) :
    ∃ m, er = PyError.valueError m := by
  unfold _check_bracketed_host at h
  split at h
  · dsimp only at h
    split at h
    · simp_all
    · exact ⟨_, (Except.error.inj h).symm⟩
  · split at h
    · exact ⟨_, (Except.error.inj h).symm⟩
    · split at h
      · simp_all
      · exact ⟨_, (Except.error.inj h).symm⟩

theorem checknetloc_error {netloc : List Char} {er : PyError}
    (h : _checknetloc netloc = Except.error er) :
    ∃ m, er = PyError.valueError m := by
  unfold _checknetloc at h
  split at h
  · simp_all
  · dsimp only at h
    split at h
    · exact ⟨_, (Except.error.inj h).symm⟩
    · simp_all

theorem bracketedHostCheck_error {netloc : List Char} {er : PyError}
    (h : bracketedHostCheck netloc = Except.error er) :
    ∃ m, er = PyError.valueError m := by
  unfold bracketedHostCheck at h
  split at h
  · exact check_bracketed_host_error h
  · simp_all

theorem urlparse_netloc_error {u : String} {er : PyError}
    (h : urlparse_netloc u = Except.error er) :
    ∃ m, er = PyError.valueError m := by
  simp only [urlparse_netloc] at h
  split at h
  · split at h
    · exact ⟨_, (Except.error.inj h).symm⟩
    · split at h
      · rename_i e heq
        obtain ⟨m, rfl⟩ := bracketedHostCheck_error heq
        exact ⟨m, (Except.error.inj h).symm⟩
      · split at h
        · rename_i e heq
          obtain ⟨m, rfl⟩ := checknetloc_error heq
          exact ⟨m, (Except.error.inj h).symm⟩
        · simp_all
  · simp_all

theorem urlparseValue_not_exception {v : Value} {er : PyError}
    (h : urlparseValue v = Except.error er) : ∀ msg, er ≠ PyError.exception msg := by
  unfold urlparseValue at h
  split at h
  · obtain ⟨m, rfl⟩ := urlparse_netloc_error h
    simp
  · intro msg
    simp [← Except.error.inj h]

theorem on_create_not_exception {e : Dict} {msg : String} :
    on_create e ≠ Except.error (PyError.exception msg) := by
  intro h
  unfold on_create at h
  cases h1 : Dict.getItem e "ResourceProperties" with
  | error er =>
    rw [h1] at h
    simp only [Except.error.injEq] at h
    exact absurd (getItem_error h1) (by simp [h])
  | ok rp =>
    rw [h1] at h
    dsimp only at h
    cases h2 : Value.getItem rp "Url" with
    | error er =>
      rw [h2] at h
      simp only [Except.error.injEq] at h
      exact valueGetItem_not_exception h2 msg h
    | ok url =>
      rw [h2] at h
      dsimp only at h
      cases h3 : urlparseValue url with
      | error er =>
        rw [h3] at h
        simp only [Except.error.injEq] at h
        exact urlparseValue_not_exception h3 msg h
      | ok n =>
        rw [h3] at h
        simp at h

theorem on_update_not_exception {e : Dict} {msg : String} :
    on_update e ≠ Except.error (PyError.exception msg) := by
  intro h
  unfold on_update at h
  cases h1 : Dict.getItem e "PhysicalResourceId" with
  | error er =>
    rw [h1] at h
    simp only [Except.error.injEq] at h
    exact absurd (getItem_error h1) (by simp [h])
  | ok pid =>
    rw [h1] at h
    dsimp only at h
    cases h2 : Dict.getItem e "ResourceProperties" with
    | error er =>
      rw [h2] at h
      simp only [Except.error.injEq] at h
      exact absurd (getItem_error h2) (by simp [h])
    | ok props =>
      rw [h2] at h
      simp at h

theorem on_delete_not_exception {e : Dict} {msg : String} :
    on_delete e ≠ Except.error (PyError.exception msg) := by
  intro h
  unfold on_delete at h
  cases h1 : Dict.getItem e "PhysicalResourceId" with
  | error er =>
    rw [h1] at h
    simp only [Except.error.injEq] at h
    exact absurd (getItem_error h1) (by simp [h])
  | ok pid =>
    rw [h1] at h
    simp at h

theorem on_create_st_fst (e : Dict) (log : List String) :
    (on_create_st e log).1 = on_create e := by
  unfold on_create_st on_create
  cases h1 : Dict.getItem e "ResourceProperties" with
  | error er => rfl
  | ok rp =>
    dsimp only
    cases h2 : Value.getItem rp "Url" with
    | error er => rfl
    | ok url =>
      dsimp only
      cases h3 : urlparseValue url with
      | error er => rfl
      | ok n => rfl

theorem on_update_st_fst (e : Dict) (log : List String) :
    (on_update_st e log).1 = on_update e := by
  unfold on_update_st on_update
  cases h1 : Dict.getItem e "PhysicalResourceId" with
  | error er => rfl
  | ok pid =>
    dsimp only
    cases h2 : Dict.getItem e "ResourceProperties" with
    | error er => rfl
    | ok props => rfl

theorem on_delete_st_fst (e : Dict) (log : List String) :
    (on_delete_st e log).1 = on_delete e := by
  unfold on_delete_st on_delete
  cases h1 : Dict.getItem e "PhysicalResourceId" with
  | error er => rfl
  | ok pid => rfl

theorem on_event_st_fst (e : Dict) (log : List String) :
    (on_event_st e log).1 = on_event e := by
  unfold on_event_st on_event
  cases h1 : Dict.getItem e "RequestType" with
  | error er => rfl
  | ok rt =>
    dsimp only
    by_cases hc : Value.eqStr rt "Create" = true
    · simp [hc, on_create_st_fst]
    · by_cases hu : Value.eqStr rt "Update" = true
      · simp [hc, hu, on_update_st_fst]
      · by_cases hd : Value.eqStr rt "Delete" = true
        · simp [hc, hu, hd, on_delete_st_fst]
        · simp [hc, hu, hd]

theorem is_complete_st_fst (e : Dict) (log : List String) :
    (is_complete_st e log).1 = is_complete e := by
  unfold is_complete_st is_complete
  cases h1 : Dict.getItem e "PhysicalResourceId" with
  | error er => rfl
  | ok pid =>
    dsimp only
    cases h2 : Dict.getItem e "RequestType" with
    | error er => rfl
    | ok rt => rfl

theorem eqStr_false {v : Value} {s : String} (h : v ≠ Value.str s) :
    Value.eqStr v s = false := by
  cases v <;> simp_all [Value.eqStr]

/-! ### Claims -/

/-- C1, counterexample: a Create event whose `Url` is the string
`"http://[::1"` (a `[` in the authority with no `]`) makes the URL parser
raise `ValueError`, which propagates out of `on_event`; no result with a
`HostName` is returned, so the claim does not hold for every `Url`
string. -/
theorem C1_counterexample :
    on_event [("RequestType", Value.str "Create"),
      ("ResourceProperties", Value.dict [("Url", Value.str "http://[::1")])] =
      Except.error (PyError.valueError "Invalid IPv6 URL") := rfl

/-- C1 (amended): for every Create event whose `ResourceProperties`
contain a `Url` string accepted by the URL parser, `on_event` returns a
result whose `Data.HostName` equals the network-location component of
that URL; a parser error instead propagates unchanged.  In particular
`"https://example.com:8080/path"` yields `"example.com:8080"` and
`"http://10.0.0.5/"` yields `"10.0.0.5"`. -/
theorem C1_hostname_is_netloc :
    (∀ (event props : Dict) (u n : String),
      Dict.lookup event "RequestType" = some (Value.str "Create") →
      Dict.lookup event "ResourceProperties" = some (Value.dict props) →
      Dict.lookup props "Url" = some (Value.str u) →
      urlparse_netloc u = Except.ok n →
      on_event event = Except.ok [("Data", Value.dict [("HostName", Value.str n)])]) ∧
    (∀ (event props : Dict) (u : String) (er : PyError),
      Dict.lookup event "RequestType" = some (Value.str "Create") →
      Dict.lookup event "ResourceProperties" = some (Value.dict props) →
      Dict.lookup props "Url" = some (Value.str u) →
      urlparse_netloc u = Except.error er →
      on_event event = Except.error er) ∧
    urlparse_netloc "https://example.com:8080/path" = Except.ok "example.com:8080" ∧
    urlparse_netloc "http://10.0.0.5/" = Except.ok "10.0.0.5" := by
  refine ⟨?_, ?_, rfl, rfl⟩
  · intro event props u n h1 h2 h3 h4
    rw [dispatch_create h1, on_create_eq h2 h3, h4]
    rfl
  · intro event props u er h1 h2 h3 h4
    rw [dispatch_create h1, on_create_eq h2 h3, h4]
    rfl

/-- C1, witness: the amended claim applied to a concrete Create event. -/
theorem C1_witness :
    on_event [("RequestType", Value.str "Create"),
      ("ResourceProperties", Value.dict [("Url", Value.str "https://example.com:8080/path")])] =
      Except.ok [("Data", Value.dict [("HostName", Value.str "example.com:8080")])] :=
  C1_hostname_is_netloc.1 _ _ _ _ rfl rfl rfl rfl

/-- C2, counterexample: an Update event carrying a `PhysicalResourceId`
but no `ResourceProperties` key does not return a result at all:
`on_update` reads `event["ResourceProperties"]` before returning, so the
handler fails with `KeyError` instead of echoing the identifier. -/
theorem C2_counterexample :
    on_event [("RequestType", Value.str "Update"),
      ("PhysicalResourceId", Value.str "abc-123")] =
      Except.error (PyError.keyError "ResourceProperties") := rfl

/-- C2 (amended): for every Delete event with a `PhysicalResourceId`
string, and every Update event with a `PhysicalResourceId` string whose
`ResourceProperties` key is also present, `on_event` returns a result
whose `PhysicalResourceId` equals the input value unchanged; an Update
event lacking `ResourceProperties` instead fails with a `KeyError`. -/
theorem C2_physical_id_roundtrip :
    ∀ (event : Dict) (s : String),
      Dict.lookup event "PhysicalResourceId" = some (Value.str s) →
      ((Dict.lookup event "RequestType" = some (Value.str "Delete") →
        on_event event = Except.ok [("PhysicalResourceId", Value.str s)]) ∧
       (∀ props, Dict.lookup event "RequestType" = some (Value.str "Update") →
        Dict.lookup event "ResourceProperties" = some props →
        on_event event = Except.ok [("PhysicalResourceId", Value.str s)]) ∧
       (Dict.lookup event "RequestType" = some (Value.str "Update") →
        Dict.lookup event "ResourceProperties" = none →
        on_event event = Except.error (PyError.keyError "ResourceProperties"))) := by
  intro event s hp
  refine ⟨?_, ?_, ?_⟩
  · intro hrt
    rw [dispatch_delete hrt]
    exact on_delete_eq hp
  · intro props hrt hprops
    rw [dispatch_update hrt]
    exact on_update_eq hp hprops
  · intro hrt hnone
    rw [dispatch_update hrt]
    simp [on_update, getItem_of_lookup hp, getItem_of_lookup_none hnone]

/-- C2, witness: the amended claim applied to the spec scenario, a Delete
event with `PhysicalResourceId = "abc-123"`. -/
theorem C2_witness :
    on_event [("RequestType", Value.str "Delete"),
      ("PhysicalResourceId", Value.str "abc-123")] =
      Except.ok [("PhysicalResourceId", Value.str "abc-123")] :=
  (C2_physical_id_roundtrip
    [("RequestType", Value.str "Delete"), ("PhysicalResourceId", Value.str "abc-123")]
    "abc-123" rfl).1 rfl

/-- C3 (confirmed): for every event whose `RequestType` key is present,
`on_event` fails with the unrecognized-request-type exception exactly
when the `RequestType` value is outside {Create, Update, Delete}; when it
does, the error is the single `Invalid request type` exception, which is
returned (propagated) rather than recovered. -/
theorem C3_invalid_request_type :
    ∀ (event : Dict) (rt : Value),
      Dict.lookup event "RequestType" = some rt →
      (((rt ≠ Value.str "Create" ∧ rt ≠ Value.str "Update" ∧ rt ≠ Value.str "Delete") →
        on_event event =
          Except.error (PyError.exception ("Invalid request type: " ++ Value.pyStr rt))) ∧
       ((∃ msg, on_event event = Except.error (PyError.exception msg)) ↔
        (rt ≠ Value.str "Create" ∧ rt ≠ Value.str "Update" ∧ rt ≠ Value.str "Delete"))) := by
  intro event rt h
  have hraise : (rt ≠ Value.str "Create" ∧ rt ≠ Value.str "Update" ∧ rt ≠ Value.str "Delete") →
      on_event event =
        Except.error (PyError.exception ("Invalid request type: " ++ Value.pyStr rt)) := by
    rintro ⟨hc, hu, hd⟩
    simp [on_event, getItem_of_lookup h, eqStr_false hc, eqStr_false hu, eqStr_false hd]
  refine ⟨hraise, ⟨?_, fun hmis => ⟨_, hraise hmis⟩⟩⟩
  rintro ⟨msg, hmsg⟩
  refine ⟨?_, ?_, ?_⟩
  · intro hrt
    subst hrt
    rw [dispatch_create h] at hmsg
    exact on_create_not_exception hmsg
  · intro hrt
    subst hrt
    rw [dispatch_update h] at hmsg
    exact on_update_not_exception hmsg
  · intro hrt
    subst hrt
    rw [dispatch_delete h] at hmsg
    exact on_delete_not_exception hmsg

/-- C3, witness: a concrete event with `RequestType = "Destroy"` raises
the unrecognized-request-type exception. -/
theorem C3_witness :
    on_event [("RequestType", Value.str "Destroy")] =
      Except.error (PyError.exception "Invalid request type: Destroy") :=
  (C3_invalid_request_type [("RequestType", Value.str "Destroy")]
    (Value.str "Destroy") rfl).1 (by refine ⟨?_, ?_, ?_⟩ <;> simp)

/-- C4 (confirmed): for every event, whatever the values of its
`RequestType` and `PhysicalResourceId` fields, `is_complete` returns the
record `{IsComplete: true}`. -/
theorem C4_is_complete_true :
    ∀ (event : Dict) (pid rt : Value),
      Dict.lookup event "PhysicalResourceId" = some pid →
      Dict.lookup event "RequestType" = some rt →
      is_complete event = Except.ok [("IsComplete", Value.bool true)] := by
  intro event pid rt hp hr
  simp [is_complete, getItem_of_lookup hp, getItem_of_lookup hr]

/-- C4, witness: a concrete event with both fields present. -/
theorem C4_witness :
    is_complete [("PhysicalResourceId", Value.str "abc-123"),
      ("RequestType", Value.str "Delete")] =
      Except.ok [("IsComplete", Value.bool true)] :=
  C4_is_complete_true
    [("PhysicalResourceId", Value.str "abc-123"), ("RequestType", Value.str "Delete")]
    (Value.str "abc-123") (Value.str "Delete") rfl rfl

/-- C5 (confirmed): for every event whose `RequestType` is Create, Update
or Delete, `on_event` returns exactly the result of the corresponding
handler applied to that event. -/
theorem C5_dispatch :
    ∀ (event : Dict),
      (Dict.lookup event "RequestType" = some (Value.str "Create") →
        on_event event = on_create event) ∧
      (Dict.lookup event "RequestType" = some (Value.str "Update") →
        on_event event = on_update event) ∧
      (Dict.lookup event "RequestType" = some (Value.str "Delete") →
        on_event event = on_delete event) :=
  fun _ => ⟨dispatch_create, dispatch_update, dispatch_delete⟩

/-- C5, witness: a concrete Create event is routed to `on_create`. -/
theorem C5_witness :
    on_event [("RequestType", Value.str "Create"),
      ("ResourceProperties", Value.dict [("Url", Value.str "http://10.0.0.5/")])] =
      on_create [("RequestType", Value.str "Create"),
        ("ResourceProperties", Value.dict [("Url", Value.str "http://10.0.0.5/")])] :=
  (C5_dispatch [("RequestType", Value.str "Create"),
    ("ResourceProperties", Value.dict [("Url", Value.str "http://10.0.0.5/")])]).1 rfl

/-- C6 (confirmed): every successful result of `on_event` on a Create
event is a record with exactly the single field `Data`; in particular it
contains no `PhysicalResourceId` field. -/
theorem C6_create_result_no_physical_id :
    ∀ (event d : Dict),
      Dict.lookup event "RequestType" = some (Value.str "Create") →
      on_event event = Except.ok d →
      Dict.lookup d "PhysicalResourceId" = none ∧
      ∃ attributes, d = [("Data", Value.dict attributes)] := by
  intro event d hrt hok
  rw [dispatch_create hrt] at hok
  obtain ⟨n, rfl⟩ := on_create_ok_shape hok
  exact ⟨rfl, ⟨_, rfl⟩⟩

/-- C6, witness: the claim applied to a concrete Create event and its
concrete result. -/
theorem C6_witness :
    Dict.lookup [("Data", Value.dict [("HostName", Value.str "10.0.0.5")])]
      "PhysicalResourceId" = none ∧
    ∃ attributes, [("Data", Value.dict [("HostName", Value.str "10.0.0.5")])] =
      [("Data", Value.dict attributes)] :=
  C6_create_result_no_physical_id
    [("RequestType", Value.str "Create"),
     ("ResourceProperties", Value.dict [("Url", Value.str "http://10.0.0.5/")])]
    [("Data", Value.dict [("HostName", Value.str "10.0.0.5")])] rfl rfl

/-- C7 (confirmed): a Create event whose `ResourceProperties` mapping
lacks the `Url` key fails with `KeyError("Url")`, and an Update or Delete
event lacking the `PhysicalResourceId` key fails with
`KeyError("PhysicalResourceId")`; in each case the lookup failure
propagates as is — it is not wrapped into the unrecognized-request-type
exception, and no result is returned. -/
theorem C7_missing_keys_propagate :
    ∀ (event : Dict),
      (∀ props, Dict.lookup event "RequestType" = some (Value.str "Create") →
        Dict.lookup event "ResourceProperties" = some (Value.dict props) →
        Dict.lookup props "Url" = none →
        on_event event = Except.error (PyError.keyError "Url")) ∧
      (Dict.lookup event "RequestType" = some (Value.str "Update") →
        Dict.lookup event "PhysicalResourceId" = none →
        on_event event = Except.error (PyError.keyError "PhysicalResourceId")) ∧
      (Dict.lookup event "RequestType" = some (Value.str "Delete") →
        Dict.lookup event "PhysicalResourceId" = none →
        on_event event = Except.error (PyError.keyError "PhysicalResourceId")) := by
  intro event
  refine ⟨?_, ?_, ?_⟩
  · intro props hrt hrp hurl
    rw [dispatch_create hrt]
    simp [on_create, getItem_of_lookup hrp, Value.getItem, getItem_of_lookup_none hurl]
  · intro hrt hp
    rw [dispatch_update hrt]
    simp [on_update, getItem_of_lookup_none hp]
  · intro hrt hp
    rw [dispatch_delete hrt]
    simp [on_delete, getItem_of_lookup_none hp]

/-- C7, witness: a concrete Create event whose properties lack `Url`. -/
theorem C7_witness :
    on_event [("RequestType", Value.str "Create"),
      ("ResourceProperties", Value.dict [("Name", Value.str "x")])] =
      Except.error (PyError.keyError "Url") :=
  ((C7_missing_keys_propagate [("RequestType", Value.str "Create"),
    ("ResourceProperties", Value.dict [("Name", Value.str "x")])]).1
    [("Name", Value.str "x")] rfl rfl rfl)

/-- C8 (confirmed): `is_complete` reads both keys before returning: an
event lacking `PhysicalResourceId` fails with
`KeyError("PhysicalResourceId")`, an event with `PhysicalResourceId` but
no `RequestType` fails with `KeyError("RequestType")`, and every
successful return has both keys present and is `{IsComplete: true}`. -/
theorem C8_is_complete_requires_keys :
    ∀ (event : Dict),
      (Dict.lookup event "PhysicalResourceId" = none →
        is_complete event = Except.error (PyError.keyError "PhysicalResourceId")) ∧
      (∀ pid, Dict.lookup event "PhysicalResourceId" = some pid →
        Dict.lookup event "RequestType" = none →
        is_complete event = Except.error (PyError.keyError "RequestType")) ∧
      (∀ r, is_complete event = Except.ok r →
        (∃ pid, Dict.lookup event "PhysicalResourceId" = some pid) ∧
        (∃ rt, Dict.lookup event "RequestType" = some rt) ∧
        r = [("IsComplete", Value.bool true)]) := by
  intro event
  refine ⟨?_, ?_, ?_⟩
  · intro h
    simp [is_complete, getItem_of_lookup_none h]
  · intro pid hp hr
    simp [is_complete, getItem_of_lookup hp, getItem_of_lookup_none hr]
  · intro r hok
    cases h1 : Dict.lookup event "PhysicalResourceId" with
    | none => simp [is_complete, getItem_of_lookup_none h1] at hok
    | some pid =>
      cases h2 : Dict.lookup event "RequestType" with
      | none => simp [is_complete, getItem_of_lookup h1, getItem_of_lookup_none h2] at hok
      | some rt =>
        simp [is_complete, getItem_of_lookup h1, getItem_of_lookup h2] at hok
        exact ⟨⟨pid, rfl⟩, ⟨rt, rfl⟩, hok.symm⟩

/-- C8, witness: the empty event fails its first lookup. -/
theorem C8_witness :
    is_complete [] = Except.error (PyError.keyError "PhysicalResourceId") :=
  (C8_is_complete_requires_keys []).1 rfl

/-- C9 (confirmed): the result of `on_update` depends only on the event's
`PhysicalResourceId`: two Update payloads with the same
`PhysicalResourceId` and arbitrary (present) `ResourceProperties` produce
identical results. -/
theorem C9_update_ignores_props :
    ∀ (e1 e2 : Dict) (pid p1 p2 : Value),
      Dict.lookup e1 "PhysicalResourceId" = some pid →
      Dict.lookup e2 "PhysicalResourceId" = some pid →
      Dict.lookup e1 "ResourceProperties" = some p1 →
      Dict.lookup e2 "ResourceProperties" = some p2 →
      on_update e1 = on_update e2 := by
  intro e1 e2 pid p1 p2 h1 h2 hp1 hp2
  rw [on_update_eq h1 hp1, on_update_eq h2 hp2]

/-- C9, witness: two concrete events with the same identifier and
different properties give the same result. -/
theorem C9_witness :
    on_update [("PhysicalResourceId", Value.str "abc-123"),
      ("ResourceProperties", Value.dict [("Url", Value.str "http://a/")])] =
    on_update [("PhysicalResourceId", Value.str "abc-123"),
      ("ResourceProperties", Value.dict [("Url", Value.str "http://b/"), ("N", Value.bool true)])] :=
  C9_update_ignores_props _ _ (Value.str "abc-123")
    (Value.dict [("Url", Value.str "http://a/")])
    (Value.dict [("Url", Value.str "http://b/"), ("N", Value.bool true)])
    rfl rfl rfl rfl

/-- C10 (confirmed): both entry points are deterministic and stateless.
With the print log threaded as explicit state (the only effect in the
source), the result of `on_event` and of `is_complete` is independent of
the state accumulated by earlier invocations, and equals the pure
function of the event alone, so two invocations on equal inputs return
equal results. -/
theorem C10_deterministic_stateless :
    ∀ (event : Dict) (s1 s2 : List String),
      (on_event_st event s1).1 = (on_event_st event s2).1 ∧
      (on_event_st event s1).1 = on_event event ∧
      (is_complete_st event s1).1 = (is_complete_st event s2).1 ∧
      (is_complete_st event s1).1 = is_complete event :=
  fun event s1 s2 =>
    ⟨(on_event_st_fst event s1).trans (on_event_st_fst event s2).symm,
     on_event_st_fst event s1,
     (is_complete_st_fst event s1).trans (is_complete_st_fst event s2).symm,
     is_complete_st_fst event s1⟩
